import Mathlib

/-!
A shallow embedding of `AZ::Data::InstanceDatabase` from
`src/dev/Code/Framework/AtomCore/AtomCore/Instance/InstanceDatabase.h`.

The database state holds the two maps guarded by the two shared mutexes
(`m_handlers`, `m_database`), the configured `m_baseAssetType`, a heap of
per-pointer reference counts (`InstanceData::m_useCount`, which lives on the
instance objects themselves), and an allocation counter `nextPtr` modelling
the heap: each construction performed by a registered create function yields
a fresh, never-before-used pointer.  Asset loading and the RTTI subtype test
`azrtti_istypeof` are external collaborators and are modelled as an
environment of pure functions.

Locking is modelled by atomicity: the exclusive-lock section of
`FindOrCreate` (lines 377-410 of the source) is a single atomic step
`FindOrCreateLocked`; a concurrent execution of N threads is a serialization
of their critical sections (the phases before the exclusive lock read the
table under a shared lock and never mutate database state).
-/

namespace InstanceDb

/-- Opaque asset identity (`AZ::Data::AssetId`). -/
abbrev AssetId := Nat

/-- Opaque asset type descriptor (`AZ::Data::AssetType`, a TypeId). -/
abbrev AssetType := Nat

/-- Opaque asset payload handed to create functions (`AssetData*`). -/
abbrev AssetPayload := Nat

/-- Modelled from the spec: `InstanceId` (header `AtomCore/Instance/InstanceId.h`
is not part of the sources).  Three construction modes — derived from an asset
identity, derived from a name, or generated randomly (the random token is made
explicit) — plus the default/invalid id.  Equality and hashing are required;
a default-constructed id is invalid. -/
inductive InstanceId where
  | invalid : InstanceId
  | fromAsset : AssetId → InstanceId
  | fromName : String → InstanceId
  | random : Nat → InstanceId
deriving DecidableEq, Repr

/-- Modelled from the spec: `InstanceId::IsValid` — only the default id is invalid. -/
def InstanceId.IsValid : InstanceId → Bool
  | .invalid => false
  | _ => true

/-- Modelled from the spec: `InstanceId::CreateFromAssetId` derives the key
deterministically from the asset identity (same asset id, same key). -/
def InstanceId.CreateFromAssetId (assetId : AssetId) : InstanceId :=
  .fromAsset assetId

/-- Modelled from the spec: `InstanceId::CreateRandom` generates a key from a
random token; the spec guarantees generated tokens are unique, so distinct
calls carry distinct tokens. -/
def InstanceId.CreateRandom (token : Nat) : InstanceId :=
  .random token

/-- An `Asset<AssetData>` handle: identity, type descriptor, readiness
(loaded or not) and the payload pointer handed to create functions. -/
structure Asset where
  id : AssetId
  assetType : AssetType
  ready : Bool
  payload : AssetPayload
deriving DecidableEq, Repr

/-- An `InstanceHandler<Type>`: the required create function.  It consumes the
asset payload and either produces a constructed value or fails (a null
`Instance<Type>`).  The optional delete function transfers ownership away and
has no observable effect inside the database model; its invocation is recorded
in `ReleaseResult.destroyedPtr`. -/
structure InstanceHandler where
  m_createFunction : AssetPayload → Option Nat

/-- The fields of an `InstanceData`-derived object as stamped by
`FindOrCreate`: the object address (`ptr`, fresh at construction), the value
produced by the create function, and the stamped `m_id`, `m_assetId`,
`m_assetType` and `m_parentDatabase` back-reference. -/
structure InstanceRec where
  ptr : Nat
  value : Nat
  m_id : InstanceId
  m_assetId : AssetId
  m_assetType : AssetType
  m_parentDatabase : Option Nat
deriving DecidableEq, Repr

/-- The state of one `InstanceDatabase<Type>`: the handler registry, the
instance table, the configured base asset type, the per-object reference
counts (`m_useCount` of each live instance object, indexed by pointer), the
heap allocation counter, and this database's own identity (the referent of
`m_parentDatabase` back-references). -/
structure DBState where
  m_handlers : AssetType → Option InstanceHandler
  m_database : InstanceId → Option InstanceRec
  m_baseAssetType : AssetType
  useCount : Nat → Int
  nextPtr : Nat
  selfId : Nat

/-- External collaborators: the RTTI test `azrtti_istypeof(base, object)` and
the blocking `AssetManager::Instance().GetAsset(id, type, true, nullptr, true)`
load (the returned handle may still not be ready when the load failed). -/
structure Env where
  istypeof : AssetType → AssetType → Bool
  getAsset : AssetId → AssetType → Asset

/-- `InstanceDatabase` as freshly created by `Create(assetType)`: both maps
empty, no object allocated yet. -/
def initState (baseAssetType : AssetType) (selfId : Nat) : DBState :=
  { m_handlers := fun _ => none
    m_database := fun _ => none
    m_baseAssetType := baseAssetType
    useCount := fun _ => 0
    nextPtr := 0
    selfId := selfId }

/-- `InstanceDatabase::FindHandler` (source lines 288-305): thread-safe lookup
in `m_handlers`, copying the handler out. -/
def FindHandler (st : DBState) (assetType : AssetType) : Option InstanceHandler :=
  st.m_handlers assetType

/-- `InstanceDatabase::AddHandler` (source lines 262-270): `emplace` into
`m_handlers` under the unique lock.  Emplace inserts only when the key is
absent; the boolean is `result.second` (the debug build asserts on `false`,
production keeps the original handler). -/
def AddHandler (st : DBState) (assetType : AssetType) (handler : InstanceHandler) :
    DBState × Bool :=
  match st.m_handlers assetType with
  | some _ => (st, false)
  | none =>
    ({ st with m_handlers := fun t => if t = assetType then some handler else st.m_handlers t },
      true)

/-- `InstanceDatabase::RemoveHandler` (source lines 281-286): unconditional
erase from `m_handlers`. -/
def RemoveHandler (st : DBState) (assetType : AssetType) : DBState :=
  { st with m_handlers := fun t => if t = assetType then none else st.m_handlers t }

/-- `InstanceDatabase::Find` (source lines 307-317): lookup in `m_database`
under a shared lock; `nullptr` when absent. -/
def Find (st : DBState) (id : InstanceId) : Option InstanceRec :=
  st.m_database id

/-- Result of one `FindOrCreate` call: the database state afterwards, the
returned instance (`none` is `nullptr`), and how many times a registered
create function was invoked during the call (0 or 1). -/
structure FindOrCreateResult where
  state : DBState
  result : Option InstanceRec
  createCalls : Nat

/-- `ValidateSameAsset` (source lines 455-478): the debug-only validation
condition.  In a debug build an error is raised when it is `false`; it has no
effect on state or on the returned instance in any build. -/
def ValidateSameAsset (inst : InstanceRec) (asset : Asset) : Bool :=
  inst.m_assetId == asset.id

/-- Lines 340-356 of `FindOrCreate`: take a local copy of the asset handle
and, if it is not ready, perform the blocking load via the asset manager. -/
def resolveAsset (env : Env) (asset : Asset) : Asset :=
  if asset.ready then asset else env.getAsset asset.id asset.assetType

/-- The instance object a successful construction hands back, as stamped by
`FindOrCreate` (source lines 396-399): the create function's product `v`
living at a fresh address, stamped with the requested id, the loaded asset's
id and type, and the back-reference to this database. -/
def mkStamped (st : DBState) (id : InstanceId) (al : Asset) (v : Nat) : InstanceRec :=
  { ptr := st.nextPtr
    value := v
    m_id := id
    m_assetId := al.id
    m_assetType := al.assetType
    m_parentDatabase := some st.selfId }

/-- The database state after `m_database.emplace(id, instance.get())`
(source line 400): the stamped instance is inserted under `id` and the
allocator advances past the fresh address it occupies. -/
def insertInstance (st : DBState) (id : InstanceId) (al : Asset) (v : Nat) : DBState :=
  { st with
      m_database := fun k => if k = id then some (mkStamped st id al v) else st.m_database k
      nextPtr := st.nextPtr + 1 }

/-- The exclusive-lock section of `FindOrCreate` (source lines 376-410),
executed atomically while `m_databaseMutex` is held: re-check `m_database`
(someone else may have got here first; on a hit `ValidateSameAsset` is a
debug-only diagnostic), otherwise look up the handler for the loaded asset's
type, invoke its create function, and on success stamp the new instance and
`emplace` it. -/
def FindOrCreateLocked (st : DBState) (id : InstanceId) (assetLocal : Asset) :
    FindOrCreateResult :=
  match st.m_database id with
  | some rec => ⟨st, some rec, 0⟩
  | none =>
    match FindHandler st assetLocal.assetType with
    | some instanceHandler =>
      match instanceHandler.m_createFunction assetLocal.payload with
      | some v =>
        ⟨insertInstance st id assetLocal v, some (mkStamped st id assetLocal v), 1⟩
      | none => ⟨st, none, 1⟩
    | none => ⟨st, none, 0⟩

/-- `InstanceDatabase::FindOrCreate(id, asset)` (source lines 319-411):
reject an invalid id with no lock taken; optimistic shared-lock lookup
(`ValidateSameAsset` on a hit is debug-only); resolve the asset, blocking
load if needed, failing with `nullptr` when the load fails; if the loaded
asset's runtime type is not a subtype of `m_baseAssetType` and a handler was
(incorrectly) registered for its exact type, assert (debug) and return
`nullptr`; otherwise enter the exclusive-lock section. -/
def FindOrCreate (env : Env) (st : DBState) (id : InstanceId) (asset : Asset) :
    FindOrCreateResult :=
  if id.IsValid = false then ⟨st, none, 0⟩
  else
    match st.m_database id with
    | some rec => ⟨st, some rec, 0⟩
    | none =>
      let assetLocal := resolveAsset env asset
      if assetLocal.ready = false then ⟨st, none, 0⟩
      else if env.istypeof st.m_baseAssetType assetLocal.assetType = false then
        if (FindHandler st assetLocal.assetType).isSome then ⟨st, none, 0⟩
        else FindOrCreateLocked st id assetLocal
      else FindOrCreateLocked st id assetLocal

/-- `InstanceDatabase::FindOrCreate(asset)` (source lines 413-417): the
keyless overload, delegating with an id created from the asset's id. -/
def FindOrCreateFromAsset (env : Env) (st : DBState) (asset : Asset) :
    FindOrCreateResult :=
  FindOrCreate env st (InstanceId.CreateFromAssetId asset.id) asset

/-- `InstanceDatabase::Create` (source lines 419-423): `FindOrCreate` with a
random id; the random token is made explicit. -/
def Create (env : Env) (st : DBState) (asset : Asset) (token : Nat) :
    FindOrCreateResult :=
  FindOrCreate env st (InstanceId.CreateRandom token) asset

/-- Result of one `ReleaseInstance` call: the state afterwards and the pointer
the handler's delete function was invoked on (`none` when it was not). -/
structure ReleaseResult where
  state : DBState
  destroyedPtr : Option Nat

/-- The database state after the successful compare-and-exchange of the
released instance's `m_useCount` from 0 to -1 (the count of the object at
`instancePtr` becomes -1) followed by `m_database.erase(instance->GetId())`
(source line 440: the erase uses the instance's own stamped `m_id`). -/
def retiredState (st : DBState) (instancePtr : Nat) (rec : InstanceRec) : DBState :=
  { st with
      useCount := fun p => if p = instancePtr then -1 else st.useCount p
      m_database := fun k => if k = rec.m_id then none else st.m_database k }

/-- `InstanceDatabase::ReleaseInstance` (source lines 425-453), executed
under the exclusive lock: look up `instanceId`; proceed only when the stored
pointer is the released instance itself and its `m_useCount` successfully
compare-and-exchanges from 0 to -1 (a failed CAS leaves the count untouched);
then erase the entry under the instance's own `m_id`, look up the handler for
the instance's originating asset type and invoke its delete function (a
missing handler asserts in debug and skips the delete).  When the pointers
match, the stored record and the released instance are the same object, so
its fields are read from the stored record. -/
def ReleaseInstance (st : DBState) (instancePtr : Nat) (instanceId : InstanceId) :
    ReleaseResult :=
  match st.m_database instanceId with
  | some rec =>
    if rec.ptr = instancePtr then
      if st.useCount instancePtr = 0 then
        match FindHandler (retiredState st instancePtr rec) rec.m_assetType with
        | some _ => ⟨retiredState st instancePtr rec, some instancePtr⟩
        | none => ⟨retiredState st instancePtr rec, none⟩
      else ⟨st, none⟩
    else ⟨st, none⟩
  | none => ⟨st, none⟩

/-- Serialized execution of the exclusive-lock sections of several concurrent
`FindOrCreate` calls for the same id: each thread has passed the phases before
the exclusive lock (which never mutate database state) and the lock serializes
their critical sections in some order.  Returns the final state and, per
thread, the instance it received and how many create-function calls it made. -/
def runLocked (id : InstanceId) : DBState → List Asset →
    DBState × List (Option InstanceRec × Nat)
  | st, [] => (st, [])
  | st, a :: rest =>
    let r := FindOrCreateLocked st id a
    let p := runLocked id r.state rest
    (p.1, (r.result, r.createCalls) :: p.2)

/-- States reachable through the public operations from a freshly created
database.  Reference counts are mutated by the smart-pointer handles outside
the database, so an arbitrary external count update is included as a step. -/
inductive Reachable : DBState → Prop where
  | init (base : AssetType) (selfId : Nat) : Reachable (initState base selfId)
  | addHandler {st : DBState} (t : AssetType) (h : InstanceHandler) :
      Reachable st → Reachable (AddHandler st t h).1
  | removeHandler {st : DBState} (t : AssetType) :
      Reachable st → Reachable (RemoveHandler st t)
  | findOrCreate {st : DBState} (env : Env) (id : InstanceId) (a : Asset) :
      Reachable st → Reachable (FindOrCreate env st id a).state
  | release {st : DBState} (p : Nat) (id : InstanceId) :
      Reachable st → Reachable (ReleaseInstance st p id).state
  | extCount {st : DBState} (f : Nat → Int) :
      Reachable st → Reachable { st with useCount := f }

/-! Concrete fixtures used to instantiate the theorems below on closed inputs. -/

/-- A handler whose create function always succeeds, stamping the payload. -/
def sampleHandler : InstanceHandler :=
  { m_createFunction := fun p => some (p + 100) }

/-- A second, different handler, used to attempt a conflicting registration. -/
def sampleHandler2 : InstanceHandler :=
  { m_createFunction := fun _ => none }

/-- An environment where every type is a subtype of every other and loads succeed. -/
def sampleEnv : Env :=
  { istypeof := fun _ _ => true
    getAsset := fun i t => { id := i, assetType := t, ready := true, payload := 7 } }

/-- An environment whose RTTI test always rejects (asset type outside the domain). -/
def sampleEnvReject : Env :=
  { istypeof := fun _ _ => false
    getAsset := fun i t => { id := i, assetType := t, ready := true, payload := 7 } }

/-- A loaded asset of type 2 with id 5. -/
def sampleAsset : Asset :=
  { id := 5, assetType := 2, ready := true, payload := 7 }

/-- An unloaded asset of a type entirely outside the cache's domain. -/
def sampleAssetBad : Asset :=
  { id := 99, assetType := 77, ready := false, payload := 0 }

/-- A database for base type 2 with `sampleHandler` registered for type 2. -/
def sampleState : DBState :=
  (AddHandler (initState 2 0) 2 sampleHandler).1

/-- The instance `FindOrCreate` constructs from `sampleAsset` in `sampleState`. -/
def sampleInst : InstanceRec :=
  { ptr := 0, value := 107, m_id := InstanceId.fromAsset 5, m_assetId := 5,
    m_assetType := 2, m_parentDatabase := some 0 }

/-- `sampleState` after a successful `FindOrCreate` for the asset-derived id. -/
def sampleState2 : DBState :=
  (FindOrCreate sampleEnv sampleState (InstanceId.fromAsset 5) sampleAsset).state

/-- Keys of the instance table are valid ids and every stored instance is
stamped with the key it is stored under. -/
def GoodKeys (st : DBState) : Prop :=
  ∀ k rec, st.m_database k = some rec → k.IsValid = true ∧ rec.m_id = k

/-! Helper lemmas shared by the claim theorems. -/

theorem findOrCreateLocked_hit {st : DBState} {id : InstanceId} {rec : InstanceRec}
    (a : Asset) (h : st.m_database id = some rec) :
    FindOrCreateLocked st id a = ⟨st, some rec, 0⟩ := by
  unfold FindOrCreateLocked
  rw [h]

theorem findOrCreateLocked_success {st : DBState} {id : InstanceId} {a : Asset}
    {h : InstanceHandler} {v : Nat}
    (hm : st.m_database id = none)
    (hh : FindHandler st a.assetType = some h)
    (hc : h.m_createFunction a.payload = some v) :
    FindOrCreateLocked st id a = ⟨insertInstance st id a v, some (mkStamped st id a v), 1⟩ := by
  unfold FindOrCreateLocked
  simp only [hm, hh, hc]

theorem runLocked_hit {st : DBState} {id : InstanceId} {rec : InstanceRec}
    (a : Asset) (h : st.m_database id = some rec) (n : Nat) :
    runLocked id st (List.replicate n a) = (st, List.replicate n (some rec, 0)) := by
  induction n with
  | zero => rfl
  | succ n ih =>
    simp only [List.replicate_succ, runLocked, findOrCreateLocked_hit a h, ih]

theorem findOrCreate_eq_locked (env : Env) (st : DBState) (id : InstanceId) (asset : Asset)
    (hv : id.IsValid = true)
    (hm : st.m_database id = none)
    (hr : (resolveAsset env asset).ready = true)
    (ht : env.istypeof st.m_baseAssetType (resolveAsset env asset).assetType = true) :
    FindOrCreate env st id asset = FindOrCreateLocked st id (resolveAsset env asset) := by
  unfold FindOrCreate
  simp [hv, hm, hr, ht]

theorem findOrCreate_hit (env : Env) (st : DBState) (id : InstanceId) (asset : Asset)
    {rec : InstanceRec} (hv : id.IsValid = true) (hm : st.m_database id = some rec) :
    FindOrCreate env st id asset = ⟨st, some rec, 0⟩ := by
  unfold FindOrCreate
  simp [hv, hm]

theorem findOrCreate_success_eq
    (env : Env) (st : DBState) (id : InstanceId) (asset : Asset)
    (hd : InstanceHandler) (v : Nat)
    (hv : id.IsValid = true)
    (hm : st.m_database id = none)
    (hr : (resolveAsset env asset).ready = true)
    (ht : env.istypeof st.m_baseAssetType (resolveAsset env asset).assetType = true)
    (hh : FindHandler st (resolveAsset env asset).assetType = some hd)
    (hc : hd.m_createFunction (resolveAsset env asset).payload = some v) :
    FindOrCreate env st id asset =
      ⟨insertInstance st id (resolveAsset env asset) v,
        some (mkStamped st id (resolveAsset env asset) v), 1⟩ := by
  rw [findOrCreate_eq_locked env st id asset hv hm hr ht,
    findOrCreateLocked_success hm hh hc]

theorem findOrCreateLocked_split (st : DBState) (id : InstanceId) (al : Asset) :
    (∃ rec, st.m_database id = some rec ∧ FindOrCreateLocked st id al = ⟨st, some rec, 0⟩) ∨
    (st.m_database id = none ∧
      (FindOrCreateLocked st id al = ⟨st, none, 0⟩ ∨ FindOrCreateLocked st id al = ⟨st, none, 1⟩)) ∨
    (∃ hd v, st.m_database id = none ∧ FindHandler st al.assetType = some hd ∧
      hd.m_createFunction al.payload = some v ∧
      FindOrCreateLocked st id al =
        ⟨insertInstance st id al v, some (mkStamped st id al v), 1⟩) := by
  rcases hdb : st.m_database id with _ | rec0
  · rcases hh : FindHandler st al.assetType with _ | hd
    · refine Or.inr (Or.inl ⟨rfl, Or.inl ?_⟩)
      unfold FindOrCreateLocked
      simp only [hdb, hh]
    · rcases hc : hd.m_createFunction al.payload with _ | v
      · refine Or.inr (Or.inl ⟨rfl, Or.inr ?_⟩)
        unfold FindOrCreateLocked
        simp only [hdb, hh, hc]
      · exact Or.inr (Or.inr ⟨hd, v, rfl, rfl, hc, findOrCreateLocked_success hdb hh hc⟩)
  · exact Or.inl ⟨rec0, rfl, findOrCreateLocked_hit al hdb⟩

theorem findOrCreate_split (env : Env) (st : DBState) (id : InstanceId) (asset : Asset) :
    FindOrCreate env st id asset = ⟨st, none, 0⟩ ∨
    (∃ rec, st.m_database id = some rec ∧ FindOrCreate env st id asset = ⟨st, some rec, 0⟩) ∨
    (id.IsValid = true ∧ st.m_database id = none ∧
      FindOrCreate env st id asset = FindOrCreateLocked st id (resolveAsset env asset)) := by
  rcases hv : id.IsValid with _ | _
  · refine Or.inl ?_
    unfold FindOrCreate
    simp [hv]
  · rcases hdb : st.m_database id with _ | rec0
    · rcases hready : (resolveAsset env asset).ready with _ | _
      · refine Or.inl ?_
        unfold FindOrCreate
        simp [hv, hdb, hready]
      · rcases hty : env.istypeof st.m_baseAssetType (resolveAsset env asset).assetType with _ | _
        · rcases hhs : (FindHandler st (resolveAsset env asset).assetType).isSome with _ | _
          · refine Or.inr (Or.inr ⟨rfl, rfl, ?_⟩)
            unfold FindOrCreate
            simp [hv, hdb, hready, hty, hhs]
          · refine Or.inl ?_
            unfold FindOrCreate
            simp [hv, hdb, hready, hty, hhs]
        · refine Or.inr (Or.inr ⟨rfl, rfl, ?_⟩)
          unfold FindOrCreate
          simp [hv, hdb, hready, hty]
    · exact Or.inr (Or.inl ⟨rec0, rfl, findOrCreate_hit env st id asset hv hdb⟩)

theorem findOrCreateLocked_db {st : DBState} {id : InstanceId} {al : Asset}
    {k : InstanceId} {rec : InstanceRec}
    (h : (FindOrCreateLocked st id al).state.m_database k = some rec) :
    st.m_database k = some rec ∨ (k = id ∧ rec.m_id = id) := by
  rcases findOrCreateLocked_split st id al with
    ⟨rec1, _, heq⟩ | ⟨_, heq | heq⟩ | ⟨hd, v, _, _, _, heq⟩
  · rw [heq] at h; exact Or.inl h
  · rw [heq] at h; exact Or.inl h
  · rw [heq] at h; exact Or.inl h
  · rw [heq] at h
    by_cases hk : k = id
    · subst hk
      simp [insertInstance] at h
      refine Or.inr ⟨rfl, ?_⟩
      rw [← h]
      rfl
    · simp only [insertInstance, if_neg hk] at h
      exact Or.inl h

theorem findOrCreate_db {env : Env} {st : DBState} {id : InstanceId} {asset : Asset}
    {k : InstanceId} {rec : InstanceRec}
    (h : (FindOrCreate env st id asset).state.m_database k = some rec) :
    st.m_database k = some rec ∨ (k = id ∧ id.IsValid = true ∧ rec.m_id = id) := by
  rcases findOrCreate_split env st id asset with heq | ⟨rec0, _, heq⟩ | ⟨hv, _, heq⟩
  · rw [heq] at h; exact Or.inl h
  · rw [heq] at h; exact Or.inl h
  · rw [heq] at h
    rcases findOrCreateLocked_db h with h1 | ⟨hk, hm⟩
    · exact Or.inl h1
    · exact Or.inr ⟨hk, hv, hm⟩

theorem releaseInstance_split (st : DBState) (p : Nat) (iid : InstanceId) :
    ((¬∃ rec, st.m_database iid = some rec ∧ rec.ptr = p ∧ st.useCount p = 0) ∧
      ReleaseInstance st p iid = ⟨st, none⟩) ∨
    (∃ rec, st.m_database iid = some rec ∧ rec.ptr = p ∧ st.useCount p = 0 ∧
      (ReleaseInstance st p iid).state = retiredState st p rec ∧
      ((ReleaseInstance st p iid).destroyedPtr = some p ↔
        (st.m_handlers rec.m_assetType).isSome = true)) := by
  unfold ReleaseInstance
  rcases hdb : st.m_database iid with _ | rec0
  · refine Or.inl ⟨?_, rfl⟩
    rintro ⟨rec, hr, -, -⟩
    cases hr
  · dsimp only
    by_cases hp : rec0.ptr = p
    · by_cases hc : st.useCount p = 0
      · rw [if_pos hp, if_pos hc]
        refine Or.inr ⟨rec0, rfl, hp, hc, ?_⟩
        rcases hh : FindHandler (retiredState st p rec0) rec0.m_assetType with _ | hd <;>
            dsimp only <;> refine ⟨rfl, ?_⟩
        · have hh2 : st.m_handlers rec0.m_assetType = none := hh
          simp [hh2]
        · have hh2 : st.m_handlers rec0.m_assetType = some hd := hh
          simp [hh2]
      · rw [if_pos hp, if_neg hc]
        refine Or.inl ⟨?_, rfl⟩
        rintro ⟨rec, hr, -, hc2⟩
        exact hc hc2
    · rw [if_neg hp]
      refine Or.inl ⟨?_, rfl⟩
      rintro ⟨rec, hr, hp2, -⟩
      obtain rfl : rec0 = rec := Option.some.inj hr
      exact hp hp2

theorem releaseInstance_db {st : DBState} {p : Nat} {iid : InstanceId}
    {k : InstanceId} {rec : InstanceRec}
    (h : (ReleaseInstance st p iid).state.m_database k = some rec) :
    st.m_database k = some rec := by
  rcases releaseInstance_split st p iid with ⟨-, heq⟩ | ⟨rec0, hdb, hp, hc, hstate, _⟩
  · rw [heq] at h
    exact h
  · rw [hstate] at h
    by_cases hk : k = rec0.m_id
    · simp [retiredState, hk] at h
    · simpa [retiredState, hk] using h

theorem addHandler_fst_database (st : DBState) (t : AssetType) (hd : InstanceHandler) :
    (AddHandler st t hd).1.m_database = st.m_database := by
  unfold AddHandler
  rcases h : st.m_handlers t with _ | h0 <;> simp only [h]

theorem reachable_goodKeys {st : DBState} (h : Reachable st) : GoodKeys st := by
  induction h with
  | init base selfId =>
    intro k rec hk
    simp [initState] at hk
  | addHandler t hd _ ih =>
    intro k rec hk
    rw [addHandler_fst_database] at hk
    exact ih k rec hk
  | removeHandler t _ ih =>
    intro k rec hk
    exact ih k rec hk
  | findOrCreate env id a _ ih =>
    intro k rec hk
    rcases findOrCreate_db hk with h1 | ⟨hke, hv, hm⟩
    · exact ih k rec h1
    · subst hke
      exact ⟨hv, hm⟩
  | release p iid _ ih =>
    intro k rec hk
    exact ih k rec (releaseInstance_db hk)
  | extCount f _ ih =>
    intro k rec hk
    exact ih k rec hk

/-! The claim theorems. -/

/-- C1: for a valid key absent from the table, when N+1 threads concurrently
call `FindOrCreate` for that key with an asset whose type has a registered
handler whose create function succeeds, the table lock serializes their
critical sections; exactly one underlying construction happens (one call to
the registered create function, made by the thread whose critical section
runs first), and every losing thread observes the winner's inserted entry at
the post-lock re-check and receives the same instance with zero create
calls of its own. -/
theorem findOrCreate_race_one_construction
    (st : DBState) (id : InstanceId) (a : Asset) (n : Nat)
    (hvalid : id.IsValid = true)
    (habsent : st.m_database id = none)
    (hd : InstanceHandler) (hh : FindHandler st a.assetType = some hd)
    (v : Nat) (hc : hd.m_createFunction a.payload = some v) :
    ∃ inst : InstanceRec,
      (runLocked id st (List.replicate (n + 1) a)).2 =
        (some inst, 1) :: List.replicate n (some inst, 0) := by
  refine ⟨mkStamped st id a v, ?_⟩
  have hsucc := findOrCreateLocked_success habsent hh hc
  have hmem : (FindOrCreateLocked st id a).state.m_database id =
      some (mkStamped st id a v) := by
    rw [hsucc]
    simp [insertInstance]
  simp only [List.replicate_succ, runLocked]
  rw [runLocked_hit a hmem n]
  simp [hsucc]

/-- Witness for C1: three serialized threads on a fresh key in `sampleState`
construct exactly once and all receive the same instance. -/
theorem findOrCreate_race_one_construction_witness :
    InstanceId.IsValid (InstanceId.fromAsset 5) = true ∧
    sampleState.m_database (InstanceId.fromAsset 5) = none ∧
    FindHandler sampleState sampleAsset.assetType = some sampleHandler ∧
    sampleHandler.m_createFunction sampleAsset.payload = some 107 ∧
    ∃ inst : InstanceRec,
      (runLocked (InstanceId.fromAsset 5) sampleState (List.replicate 3 sampleAsset)).2 =
        (some inst, 1) :: List.replicate 2 (some inst, 0) :=
  ⟨rfl, rfl, rfl, rfl,
    findOrCreate_race_one_construction sampleState (InstanceId.fromAsset 5) sampleAsset 2
      rfl rfl sampleHandler rfl 107 rfl⟩

/-- C2: `ReleaseInstance` removes the entry and invokes the handler's delete
function exactly when the table maps the key to the released pointer itself
and the use count compare-and-exchanges from 0 to the retiring sentinel -1;
in every other case (key absent, stored pointer differs, or the count is not
0) the call returns the state unchanged with no delete invoked.  After a
successful release, releasing the same instance again is a no-op, so the
delete function is never invoked twice for one instance.  The two hypotheses
record reachability facts: stored instances are stamped with their key, and
a handler is registered for the stored instance's asset type. -/
theorem releaseInstance_destroy_iff
    (st : DBState) (p : Nat) (key : InstanceId)
    (hgood : ∀ rec, st.m_database key = some rec → rec.m_id = key)
    (hhand : ∀ rec, st.m_database key = some rec →
      (st.m_handlers rec.m_assetType).isSome = true) :
    ((∃ rec, st.m_database key = some rec ∧ rec.ptr = p ∧ st.useCount p = 0) →
      (ReleaseInstance st p key).state.m_database key = none ∧
      (ReleaseInstance st p key).destroyedPtr = some p ∧
      (ReleaseInstance st p key).state.useCount p = -1 ∧
      ReleaseInstance (ReleaseInstance st p key).state p key =
        ⟨(ReleaseInstance st p key).state, none⟩) ∧
    (¬(∃ rec, st.m_database key = some rec ∧ rec.ptr = p ∧ st.useCount p = 0) →
      ReleaseInstance st p key = ⟨st, none⟩) := by
  constructor
  · intro hex
    rcases releaseInstance_split st p key with ⟨hnot, -⟩ | ⟨rec0, hdb0, hp0, hc0, hstate, hiff⟩
    · exact absurd hex hnot
    · have hid := hgood rec0 hdb0
      have hnone : (ReleaseInstance st p key).state.m_database key = none := by
        rw [hstate]
        simp [retiredState, hid]
      refine ⟨hnone, hiff.mpr (hhand rec0 hdb0), ?_, ?_⟩
      · rw [hstate]
        simp [retiredState]
      · rcases releaseInstance_split (ReleaseInstance st p key).state p key with
          ⟨-, heq2⟩ | ⟨rec1, hdb1, -, -, -, -⟩
        · exact heq2
        · rw [hnone] at hdb1
          cases hdb1
  · intro hne
    rcases releaseInstance_split st p key with ⟨-, heq⟩ | ⟨rec0, hdb0, hp0, hc0, -, -⟩
    · exact heq
    · exact absurd ⟨rec0, hdb0, hp0, hc0⟩ hne

/-- Witness for C2: releasing the instance cached in `sampleState2` removes
it, retires its count and invokes the delete exactly once. -/
theorem releaseInstance_destroy_iff_witness :
    (ReleaseInstance sampleState2 0 (InstanceId.fromAsset 5)).state.m_database
        (InstanceId.fromAsset 5) = none ∧
    (ReleaseInstance sampleState2 0 (InstanceId.fromAsset 5)).destroyedPtr = some 0 ∧
    (ReleaseInstance sampleState2 0 (InstanceId.fromAsset 5)).state.useCount 0 = -1 ∧
    ReleaseInstance (ReleaseInstance sampleState2 0 (InstanceId.fromAsset 5)).state 0
        (InstanceId.fromAsset 5) =
      ⟨(ReleaseInstance sampleState2 0 (InstanceId.fromAsset 5)).state, none⟩ :=
  (releaseInstance_destroy_iff sampleState2 0 (InstanceId.fromAsset 5)
      (fun rec h => by
        have h2 : some sampleInst = some rec := h
        injection h2 with h3
        subst h3
        rfl)
      (fun rec h => by
        have h2 : some sampleInst = some rec := h
        injection h2 with h3
        subst h3
        rfl)).1
    ⟨sampleInst, rfl, rfl, rfl⟩

/-- C3: whenever `FindOrCreate` returns "not found" — load failed, asset type
outside the domain, no handler registered for the loaded type, or the create
function produced no instance — the database state is left exactly as it
was: nothing is inserted under the id and no existing entry is modified. -/
theorem findOrCreate_not_found_no_mutation
    (env : Env) (st : DBState) (id : InstanceId) (asset : Asset)
    (hfail : (FindOrCreate env st id asset).result = none) :
    (FindOrCreate env st id asset).state = st := by
  rcases findOrCreate_split env st id asset with heq | ⟨rec0, hdb, heq⟩ | ⟨hv, hdb, heq⟩
  · rw [heq]
  · rw [heq] at hfail
    simp at hfail
  · rw [heq] at hfail ⊢
    rcases findOrCreateLocked_split st id (resolveAsset env asset) with
      ⟨rec1, hdb1, heq1⟩ | ⟨hdb1, heq1 | heq1⟩ | ⟨h1, v1, hdb1, hh1, hc1, heq1⟩
    · rw [heq1]
    · rw [heq1]
    · rw [heq1]
    · rw [heq1] at hfail
      simp at hfail

/-- Witness for C3: with no handler registered, `FindOrCreate` fails and the
state is returned unchanged. -/
theorem findOrCreate_not_found_no_mutation_witness :
    (FindOrCreate sampleEnv (initState 2 0) (InstanceId.fromAsset 5) sampleAsset).result =
      none ∧
    (FindOrCreate sampleEnv (initState 2 0) (InstanceId.fromAsset 5) sampleAsset).state =
      initState 2 0 :=
  ⟨rfl,
    findOrCreate_not_found_no_mutation sampleEnv (initState 2 0) (InstanceId.fromAsset 5)
      sampleAsset rfl⟩

/-- C4: when `FindOrCreate` really constructs, the returned instance is
stamped with the requested id, the loaded asset's id and type, and the
back-reference to this database, and the table maps the id to it, so a
subsequent `Find` of the same id returns the same instance. -/
theorem findOrCreate_stamps_and_inserts
    (env : Env) (st : DBState) (id : InstanceId) (asset : Asset)
    (hd : InstanceHandler) (v : Nat)
    (hv : id.IsValid = true)
    (hm : st.m_database id = none)
    (hr : (resolveAsset env asset).ready = true)
    (ht : env.istypeof st.m_baseAssetType (resolveAsset env asset).assetType = true)
    (hh : FindHandler st (resolveAsset env asset).assetType = some hd)
    (hc : hd.m_createFunction (resolveAsset env asset).payload = some v) :
    ∃ inst : InstanceRec,
      (FindOrCreate env st id asset).result = some inst ∧
      (FindOrCreate env st id asset).createCalls = 1 ∧
      inst.m_id = id ∧
      inst.m_assetId = (resolveAsset env asset).id ∧
      inst.m_assetType = (resolveAsset env asset).assetType ∧
      inst.m_parentDatabase = some st.selfId ∧
      (FindOrCreate env st id asset).state.m_database id = some inst ∧
      Find (FindOrCreate env st id asset).state id = some inst := by
  rw [findOrCreate_success_eq env st id asset hd v hv hm hr ht hh hc]
  exact ⟨mkStamped st id (resolveAsset env asset) v, rfl, rfl, rfl, rfl, rfl, rfl,
    by simp [insertInstance], by simp [Find, insertInstance]⟩

/-- Witness for C4 on concrete inputs: the constructed instance carries all
four stamps and is found again. -/
theorem findOrCreate_stamps_and_inserts_witness :
    InstanceId.IsValid (InstanceId.fromAsset 5) = true ∧
    sampleState.m_database (InstanceId.fromAsset 5) = none ∧
    ∃ inst : InstanceRec,
      (FindOrCreate sampleEnv sampleState (InstanceId.fromAsset 5) sampleAsset).result =
        some inst ∧
      (FindOrCreate sampleEnv sampleState (InstanceId.fromAsset 5) sampleAsset).createCalls =
        1 ∧
      inst.m_id = InstanceId.fromAsset 5 ∧
      inst.m_assetId = (resolveAsset sampleEnv sampleAsset).id ∧
      inst.m_assetType = (resolveAsset sampleEnv sampleAsset).assetType ∧
      inst.m_parentDatabase = some sampleState.selfId ∧
      (FindOrCreate sampleEnv sampleState (InstanceId.fromAsset 5) sampleAsset).state.m_database
        (InstanceId.fromAsset 5) = some inst ∧
      Find (FindOrCreate sampleEnv sampleState (InstanceId.fromAsset 5) sampleAsset).state
        (InstanceId.fromAsset 5) = some inst :=
  ⟨rfl, rfl,
    findOrCreate_stamps_and_inserts sampleEnv sampleState (InstanceId.fromAsset 5) sampleAsset
      sampleHandler 107 rfl rfl rfl rfl rfl rfl⟩

/-- C5: in every reachable state each key present in the table is a valid id;
consequently `Find` with an invalid id returns "absent", and `FindOrCreate`
with an invalid id returns "not found" immediately with the state unchanged
and no construction performed. -/
theorem invalid_id_never_resolves
    (env : Env) (st : DBState) (id : InstanceId) (asset : Asset)
    (hst : Reachable st) (hinv : id.IsValid = false) :
    (∀ k rec, st.m_database k = some rec → k.IsValid = true) ∧
    Find st id = none ∧
    FindOrCreate env st id asset = ⟨st, none, 0⟩ := by
  refine ⟨fun k rec h => (reachable_goodKeys hst k rec h).1, ?_, ?_⟩
  · rcases hdb : st.m_database id with _ | rec
    · exact hdb
    · have hval := (reachable_goodKeys hst id rec hdb).1
      rw [hinv] at hval
      cases hval
  · unfold FindOrCreate
    simp [hinv]

/-- Witness for C5 at the freshly created database and the default id. -/
theorem invalid_id_never_resolves_witness :
    Reachable (initState 2 0) ∧
    InstanceId.IsValid InstanceId.invalid = false ∧
    Find (initState 2 0) InstanceId.invalid = none ∧
    FindOrCreate sampleEnv (initState 2 0) InstanceId.invalid sampleAsset =
      ⟨initState 2 0, none, 0⟩ :=
  ⟨Reachable.init 2 0, rfl,
    (invalid_id_never_resolves sampleEnv (initState 2 0) InstanceId.invalid sampleAsset
        (Reachable.init 2 0) rfl).2⟩

/-- C6: a successfully loaded asset whose runtime type is not a subtype of
the configured base asset type never leads to an insertion: with a handler
registered for the exact type the misconfiguration check fails the call
(fatal assertion in debug, null in production), and with no handler the call
ends in the missing-handler branch; either way the result is "not found",
the create function is never invoked, and the state is unchanged. -/
theorem non_subtype_asset_rejected
    (env : Env) (st : DBState) (id : InstanceId) (asset : Asset)
    (hv : id.IsValid = true)
    (hm : st.m_database id = none)
    (hr : (resolveAsset env asset).ready = true)
    (ht : env.istypeof st.m_baseAssetType (resolveAsset env asset).assetType = false) :
    FindOrCreate env st id asset = ⟨st, none, 0⟩ := by
  unfold FindOrCreate
  rcases hh : FindHandler st (resolveAsset env asset).assetType with _ | hd
  · simp only [hv, hm, hr, ht, hh]
    simp
    unfold FindOrCreateLocked
    simp only [hm, hh]
  · simp [hv, hm, hr, ht, hh]

/-- Witness for C6: a rejecting RTTI environment with a handler registered
for the asset's exact type yields "not found" and no state change. -/
theorem non_subtype_asset_rejected_witness :
    InstanceId.IsValid (InstanceId.fromAsset 9) = true ∧
    sampleState.m_database (InstanceId.fromAsset 9) = none ∧
    (resolveAsset sampleEnvReject sampleAsset).ready = true ∧
    sampleEnvReject.istypeof sampleState.m_baseAssetType
      (resolveAsset sampleEnvReject sampleAsset).assetType = false ∧
    FindOrCreate sampleEnvReject sampleState (InstanceId.fromAsset 9) sampleAsset =
      ⟨sampleState, none, 0⟩ :=
  ⟨rfl, rfl, rfl, rfl,
    non_subtype_asset_rejected sampleEnvReject sampleState (InstanceId.fromAsset 9)
      sampleAsset rfl rfl rfl rfl⟩

/-- C7: registering a handler for an asset type that already has one fails
(the emplace inserts nothing; debug builds assert on the conflict) and
leaves the registry exactly as it was, so a lookup for that type still
yields the originally registered handler. -/
theorem addHandler_conflict_keeps_original
    (st : DBState) (t : AssetType) (p p2 : InstanceHandler)
    (hfree : st.m_handlers t = none) :
    (AddHandler st t p).2 = true ∧
    (AddHandler (AddHandler st t p).1 t p2).2 = false ∧
    (AddHandler (AddHandler st t p).1 t p2).1 = (AddHandler st t p).1 ∧
    FindHandler (AddHandler (AddHandler st t p).1 t p2).1 t = some p := by
  unfold AddHandler FindHandler
  simp [hfree]

/-- Witness for C7: a conflicting second registration for type 2 is rejected
and the first handler remains in effect. -/
theorem addHandler_conflict_keeps_original_witness :
    (initState 2 0).m_handlers 2 = none ∧
    (AddHandler (initState 2 0) 2 sampleHandler).2 = true ∧
    (AddHandler (AddHandler (initState 2 0) 2 sampleHandler).1 2 sampleHandler2).2 = false ∧
    (AddHandler (AddHandler (initState 2 0) 2 sampleHandler).1 2 sampleHandler2).1 =
      (AddHandler (initState 2 0) 2 sampleHandler).1 ∧
    FindHandler (AddHandler (AddHandler (initState 2 0) 2 sampleHandler).1 2 sampleHandler2).1
      2 = some sampleHandler :=
  ⟨rfl, addHandler_conflict_keeps_original (initState 2 0) 2 sampleHandler sampleHandler2 rfl⟩

/-- C8: `Create(asset)` is `FindOrCreate` with a freshly generated random id,
so two calls with the same asset (whose distinct random tokens the spec
guarantees) construct two distinct instances stored under two distinct keys:
the random-key path never deduplicates. -/
theorem create_random_never_dedups
    (env : Env) (st : DBState) (asset : Asset)
    (hd : InstanceHandler) (v : Nat) (t1 t2 : Nat)
    (hne : t1 ≠ t2)
    (h1 : st.m_database (InstanceId.CreateRandom t1) = none)
    (h2 : st.m_database (InstanceId.CreateRandom t2) = none)
    (hr : (resolveAsset env asset).ready = true)
    (ht : env.istypeof st.m_baseAssetType (resolveAsset env asset).assetType = true)
    (hh : FindHandler st (resolveAsset env asset).assetType = some hd)
    (hc : hd.m_createFunction (resolveAsset env asset).payload = some v) :
    InstanceId.CreateRandom t1 ≠ InstanceId.CreateRandom t2 ∧
    ∃ inst1 inst2 : InstanceRec,
      (Create env st asset t1).result = some inst1 ∧
      (Create env (Create env st asset t1).state asset t2).result = some inst2 ∧
      inst1.ptr ≠ inst2.ptr ∧
      (Create env (Create env st asset t1).state asset t2).state.m_database
        (InstanceId.CreateRandom t1) = some inst1 ∧
      (Create env (Create env st asset t1).state asset t2).state.m_database
        (InstanceId.CreateRandom t2) = some inst2 := by
  have hkey : InstanceId.CreateRandom t1 ≠ InstanceId.CreateRandom t2 := by
    simpa [InstanceId.CreateRandom] using hne
  have E1 : FindOrCreate env st (InstanceId.CreateRandom t1) asset =
      ⟨insertInstance st (InstanceId.CreateRandom t1) (resolveAsset env asset) v,
        some (mkStamped st (InstanceId.CreateRandom t1) (resolveAsset env asset) v), 1⟩ :=
    findOrCreate_success_eq env st _ asset hd v rfl h1 hr ht hh hc
  have hm2 :
      (insertInstance st (InstanceId.CreateRandom t1) (resolveAsset env asset) v).m_database
        (InstanceId.CreateRandom t2) = none := by
    simp [insertInstance, Ne.symm hkey, h2]
  have E2 : FindOrCreate env
        (insertInstance st (InstanceId.CreateRandom t1) (resolveAsset env asset) v)
        (InstanceId.CreateRandom t2) asset =
      ⟨insertInstance
          (insertInstance st (InstanceId.CreateRandom t1) (resolveAsset env asset) v)
          (InstanceId.CreateRandom t2) (resolveAsset env asset) v,
        some (mkStamped
          (insertInstance st (InstanceId.CreateRandom t1) (resolveAsset env asset) v)
          (InstanceId.CreateRandom t2) (resolveAsset env asset) v), 1⟩ :=
    findOrCreate_success_eq env _ _ asset hd v rfl hm2 hr ht hh hc
  refine ⟨hkey, mkStamped st (InstanceId.CreateRandom t1) (resolveAsset env asset) v,
    mkStamped (insertInstance st (InstanceId.CreateRandom t1) (resolveAsset env asset) v)
      (InstanceId.CreateRandom t2) (resolveAsset env asset) v, ?_, ?_, ?_, ?_, ?_⟩
  · simp only [Create, E1]
  · simp only [Create, E1, E2]
  · simp [mkStamped, insertInstance]
  · simp only [Create, E1, E2]
    simp [insertInstance, hkey]
  · simp only [Create, E1, E2]
    simp [insertInstance]

/-- Witness for C8: two `Create` calls with distinct random tokens cache two
distinct instances under two distinct keys. -/
theorem create_random_never_dedups_witness :
    (40 : Nat) ≠ 41 ∧
    InstanceId.CreateRandom 40 ≠ InstanceId.CreateRandom 41 ∧
    ∃ inst1 inst2 : InstanceRec,
      (Create sampleEnv sampleState sampleAsset 40).result = some inst1 ∧
      (Create sampleEnv (Create sampleEnv sampleState sampleAsset 40).state sampleAsset
        41).result = some inst2 ∧
      inst1.ptr ≠ inst2.ptr ∧
      (Create sampleEnv (Create sampleEnv sampleState sampleAsset 40).state sampleAsset
        41).state.m_database (InstanceId.CreateRandom 40) = some inst1 ∧
      (Create sampleEnv (Create sampleEnv sampleState sampleAsset 40).state sampleAsset
        41).state.m_database (InstanceId.CreateRandom 41) = some inst2 :=
  ⟨by decide,
    create_random_never_dedups sampleEnv sampleState sampleAsset sampleHandler 107 40 41
      (by decide) rfl rfl rfl rfl rfl rfl⟩

/-- C9: the keyless `FindOrCreate(asset)` overload derives its key as a
deterministic function of the asset's identity (equal asset ids yield equal
keys), so a second keyless call with the same asset hits the entry created
by the first and returns the same instance with no further construction. -/
theorem keyless_findOrCreate_dedups
    (env : Env) (st : DBState) (asset : Asset)
    (hd : InstanceHandler) (v : Nat)
    (hm : st.m_database (InstanceId.CreateFromAssetId asset.id) = none)
    (hr : (resolveAsset env asset).ready = true)
    (ht : env.istypeof st.m_baseAssetType (resolveAsset env asset).assetType = true)
    (hh : FindHandler st (resolveAsset env asset).assetType = some hd)
    (hc : hd.m_createFunction (resolveAsset env asset).payload = some v) :
    (∀ a1 a2 : Asset, a1.id = a2.id →
      InstanceId.CreateFromAssetId a1.id = InstanceId.CreateFromAssetId a2.id) ∧
    ∃ inst : InstanceRec,
      (FindOrCreateFromAsset env st asset).result = some inst ∧
      (FindOrCreateFromAsset env st asset).createCalls = 1 ∧
      FindOrCreateFromAsset env (FindOrCreateFromAsset env st asset).state asset =
        ⟨(FindOrCreateFromAsset env st asset).state, some inst, 0⟩ := by
  refine ⟨fun a1 a2 h => by rw [h], ?_⟩
  have E1 : FindOrCreate env st (InstanceId.CreateFromAssetId asset.id) asset =
      ⟨insertInstance st (InstanceId.CreateFromAssetId asset.id) (resolveAsset env asset) v,
        some (mkStamped st (InstanceId.CreateFromAssetId asset.id) (resolveAsset env asset) v),
        1⟩ :=
    findOrCreate_success_eq env st _ asset hd v rfl hm hr ht hh hc
  refine ⟨mkStamped st (InstanceId.CreateFromAssetId asset.id) (resolveAsset env asset) v,
    ?_, ?_, ?_⟩
  · simp only [FindOrCreateFromAsset, E1]
  · simp only [FindOrCreateFromAsset, E1]
  · simp only [FindOrCreateFromAsset, E1]
    exact findOrCreate_hit env _ _ asset rfl (by simp [insertInstance])

/-- Witness for C9: two successive keyless calls with the same asset yield
one construction and then a pure cache hit. -/
theorem keyless_findOrCreate_dedups_witness :
    sampleState.m_database (InstanceId.CreateFromAssetId sampleAsset.id) = none ∧
    ∃ inst : InstanceRec,
      (FindOrCreateFromAsset sampleEnv sampleState sampleAsset).result = some inst ∧
      (FindOrCreateFromAsset sampleEnv sampleState sampleAsset).createCalls = 1 ∧
      FindOrCreateFromAsset sampleEnv
          (FindOrCreateFromAsset sampleEnv sampleState sampleAsset).state sampleAsset =
        ⟨(FindOrCreateFromAsset sampleEnv sampleState sampleAsset).state, some inst, 0⟩ :=
  ⟨rfl,
    (keyless_findOrCreate_dedups sampleEnv sampleState sampleAsset sampleHandler 107
        rfl rfl rfl rfl rfl).2⟩

/-- C10: on a cache hit `FindOrCreate` returns the stored instance for any
environment (so the asset is never loaded and no runtime-type check against
the base asset type occurs), for any asset argument (even unloaded, of a
foreign type, or failing the debug-only `ValidateSameAsset` check), and for
any contents of the handler registry (it is never consulted); the state is
returned unchanged and no construction happens. -/
theorem findOrCreate_hit_bypasses_checks
    (st : DBState) (id : InstanceId) (rec : InstanceRec)
    (hv : id.IsValid = true) (hfound : st.m_database id = some rec) :
    ∀ (env : Env) (asset : Asset) (hs : AssetType → Option InstanceHandler),
      FindOrCreate env { st with m_handlers := hs } id asset =
        ⟨{ st with m_handlers := hs }, some rec, 0⟩ := by
  intro env asset hs
  exact findOrCreate_hit env _ id asset hv hfound

/-- Witness for C10: with an always-rejecting RTTI environment, an unloaded
foreign asset and an emptied handler registry, the cached instance is still
returned unchanged. -/
theorem findOrCreate_hit_bypasses_checks_witness :
    InstanceId.IsValid (InstanceId.fromAsset 5) = true ∧
    sampleState2.m_database (InstanceId.fromAsset 5) = some sampleInst ∧
    sampleAssetBad.ready = false ∧
    ValidateSameAsset sampleInst sampleAssetBad = false ∧
    FindOrCreate sampleEnvReject { sampleState2 with m_handlers := fun _ => none }
        (InstanceId.fromAsset 5) sampleAssetBad =
      ⟨{ sampleState2 with m_handlers := fun _ => none }, some sampleInst, 0⟩ :=
  ⟨rfl, rfl, rfl, rfl,
    findOrCreate_hit_bypasses_checks sampleState2 (InstanceId.fromAsset 5) sampleInst
      rfl rfl sampleEnvReject sampleAssetBad (fun _ => none)⟩

end InstanceDb
